import Mathlib

/-!
Shallow embedding of the revolv repository excerpt: the development-database
seeding command (src/revolv/base/management/commands/seed.py) and the project
form definitions (src/revolv/project/forms.py).

The database is modelled as explicit lists of rows for the tables the seed
command touches: auth users, RevolvUserProfiles, Projects, Payments, and CMS
pages.  Each seed specification operation is a function from a database state
to a result carrying the new state, the lines it printed, and the exception
it raised, if any.  An exception aborts the remaining steps of the command
(there is no handler in the command itself), exactly as in the source.
-/

namespace Revolv

/-- A row of the Project table. Only the columns the seed command and its
clear operation consult are modelled: the primary key, the tagline used as
the lookup key in clear and in the payment seed, the foreign key to the
ambassador RevolvUserProfile (by username), and the factory that created
the row. -/
structure ProjectRow where
  id : Nat
  tagline : String
  ambassador : String
  factory : String
deriving DecidableEq, Repr

/-- A row of the Payment table: foreign key to the project, foreign key to
the paying RevolvUserProfile (by username), foreign key to the entrant
profile, and the amount. -/
structure PaymentRow where
  projectId : Nat
  user : String
  entrant : String
  amount : ℚ
deriving DecidableEq, Repr

/-- The database state seen by the seed command.  `users` is the auth user
table (by username, unique per the framework constraint), `profiles` the
RevolvUserProfile table (by the username of the owning user), `projects`
and `payments` the corresponding tables, `nextProjectId` the primary-key
sequence for projects, `pages` the titles of the CMS pages below the root
page of the single site, and `rootPageTitle` the title of that root page.
Modelled from the spec: the single CMS Site and its root page are a
framework fixture and always exist. -/
structure DB where
  users : List String
  profiles : List String
  projects : List ProjectRow
  payments : List PaymentRow
  nextProjectId : Nat
  pages : List String
  rootPageTitle : String
deriving DecidableEq, Repr

/-- The exceptions the seed command can raise or catch: an integrity error
from the unique username constraint, the DoesNotExist errors of the User,
RevolvUserProfile and Project models, and MultipleObjectsReturned from a
get that matches more than one row. -/
inductive Err where
  | integrity
  | userNotFound
  | profileNotFound
  | projectNotFound
  | multipleProjects
deriving DecidableEq, Repr

/-- The result of running part of the command: the database state reached
(including partial changes when an exception was raised), the lines printed,
and the exception raised, if any. -/
structure RunResult where
  db : DB
  out : List String
  err : Option Err
deriving DecidableEq, Repr

/-- Sequence two steps of the command: if the first step raised, the raise
propagates and the second step never runs; there is no handler in between. -/
def andThen (r : RunResult) (f : DB → RunResult) : RunResult :=
  match r.err with
  | some _ => r
  | none =>
    let r2 := f r.db
    ⟨r2.db, r.out ++ r2.out, r2.err⟩

/-- Print a line unless the quiet flag is set. -/
def logIf (quiet : Bool) (msg : String) : List String :=
  if quiet then [] else [msg]

/-- The warning format used by every clear operation of the seed specs. -/
def warnMsg (cls msg : String) : String :=
  "[Seed:Warning] Error in " ++ cls ++ " when trying to clear: " ++ msg

/-- One user-creation call of RevolvUserProfileSeedSpec.seed.  Modelled from
the spec: creating a user inserts the auth User row together with its
RevolvUserProfile (profiles are created with their users), and the username
column is unique, a framework-enforced constraint, so inserting a duplicate
username raises an integrity error. -/
def createUser (username : String) (db : DB) : RunResult :=
  if username ∈ db.users then ⟨db, [], some .integrity⟩
  else
    ⟨{ db with users := db.users ++ [username],
               profiles := db.profiles ++ [username] }, [], none⟩

/-- RevolvUserProfileSeedSpec.seed: create the donor, ambassador and
administrator users, in that order. -/
def revolvUserProfileSeed (_quiet : Bool) (db : DB) : RunResult :=
  andThen (createUser "donor" db) (fun d =>
    andThen (createUser "ambassador" d) (createUser "administrator"))

/-- The usernames RevolvUserProfileSeedSpec.clear iterates over. -/
def usernamesToClear : List String := ["donor", "ambassador", "administrator"]

/-- Deletion of one RevolvUserProfile row.  Modelled from the spec: the ORM
cascades foreign-key deletes, so the payments whose user or entrant is this
profile, the projects whose ambassador is this profile, and the payments of
those projects are deleted with it. -/
def deleteProfileCascade (u : String) (db : DB) : DB :=
  let doomedIds := (db.projects.filter (fun p => p.ambassador == u)).map (fun p => p.id)
  { db with
    profiles := db.profiles.filter (fun x => x != u),
    projects := db.projects.filter (fun p => p.ambassador != u),
    payments := db.payments.filter (fun pm =>
      pm.user != u && pm.entrant != u && !(doomedIds.contains pm.projectId)) }

/-- Deletion of one auth User row (its profile has already been deleted by
the time clear deletes the user). -/
def deleteUser (u : String) (db : DB) : DB :=
  { db with users := db.users.filter (fun x => x != u) }

/-- One iteration of the loop in RevolvUserProfileSeedSpec.clear: get the
User (a miss raises User.DoesNotExist, which the except clause catches and
turns into a warning), then get and delete its RevolvUserProfile (a miss
raises RevolvUserProfile.DoesNotExist, which the except clause, written for
User.DoesNotExist only, does not catch), then delete the user. -/
def revolvUserProfileClearOne (quiet : Bool) (u : String) (db : DB) : RunResult :=
  if u ∈ db.users then
    if u ∈ db.profiles then
      ⟨deleteUser u (deleteProfileCascade u db), [], none⟩
    else ⟨db, [], some .profileNotFound⟩
  else
    ⟨db, logIf quiet (warnMsg "RevolvUserProfileSeedSpec"
      "User matching query does not exist."), none⟩

/-- RevolvUserProfileSeedSpec.clear: iterate over the three usernames. -/
def revolvUserProfileClear (quiet : Bool) (db : DB) : RunResult :=
  andThen (revolvUserProfileClearOne quiet "donor" db) (fun d =>
    andThen (revolvUserProfileClearOne quiet "ambassador" d)
      (revolvUserProfileClearOne quiet "administrator"))

/-- The tagline of the studio project dictionary of ProjectSeedSpec. -/
def studioTagline : String := "Dance forever, dance until dawn."

/-- The tagline of the dairy project dictionary of ProjectSeedSpec. -/
def dairyTagline : String := "Some say that milk is power."

/-- The tagline of the educathing project dictionary of ProjectSeedSpec. -/
def educathingTagline : String := "Our children need to learn."

/-- The tagline of the emblem project dictionary of ProjectSeedSpec. -/
def emblemTagline : String := "The force is strong with this boy."

/-- The taglines of the four project dictionaries, in the order of
ProjectSeedSpec.projects_to_clear. -/
def seededTaglines : List String :=
  [studioTagline, dairyTagline, educathingTagline, emblemTagline]

/-- One factory create call of ProjectSeedSpec.seed: insert a project row
with the next primary key. -/
def createProject (factory tagline ambassador : String) (db : DB) : DB :=
  { db with
    projects := db.projects ++ [⟨db.nextProjectId, tagline, ambassador, factory⟩],
    nextProjectId := db.nextProjectId + 1 }

/-- ProjectSeedSpec.seed: look up the ambassador profile (a miss raises
RevolvUserProfile.DoesNotExist, uncaught), then create the four projects
through the active, completed, proposed and drafted factories. -/
def projectSeed (_quiet : Bool) (db : DB) : RunResult :=
  if "ambassador" ∈ db.profiles then
    ⟨createProject "drafted" emblemTagline "ambassador"
      (createProject "proposed" educathingTagline "ambassador"
        (createProject "completed" dairyTagline "ambassador"
          (createProject "active" studioTagline "ambassador" db))), [], none⟩
  else ⟨db, [], some .profileNotFound⟩

/-- Project.objects.get(tagline=t): zero matches raise Project.DoesNotExist,
more than one raises MultipleObjectsReturned. -/
def getProjectByTagline (t : String) (db : DB) : Except Err ProjectRow :=
  match db.projects.filter (fun p => p.tagline == t) with
  | [] => .error .projectNotFound
  | [p] => .ok p
  | _ => .error .multipleProjects

/-- Deletion of one Project row: the ORM cascade also deletes the payments
of that project. -/
def deleteProjectCascade (p : ProjectRow) (db : DB) : DB :=
  { db with
    projects := db.projects.filter (fun q => q.id != p.id),
    payments := db.payments.filter (fun pm => pm.projectId != p.id) }

/-- One iteration of the loop in ProjectSeedSpec.clear: get the project by
tagline and delete it; Project.DoesNotExist is caught and turned into a
warning, any other exception propagates. -/
def projectClearOne (quiet : Bool) (t : String) (db : DB) : RunResult :=
  match getProjectByTagline t db with
  | .ok p => ⟨deleteProjectCascade p db, [], none⟩
  | .error .projectNotFound =>
    ⟨db, logIf quiet (warnMsg "ProjectSeedSpec"
      "Project matching query does not exist."), none⟩
  | .error e => ⟨db, [], some e⟩

/-- ProjectSeedSpec.clear: iterate over the four project taglines. -/
def projectClear (quiet : Bool) (db : DB) : RunResult :=
  andThen (projectClearOne quiet studioTagline db) (fun d =>
    andThen (projectClearOne quiet dairyTagline d) (fun d2 =>
      andThen (projectClearOne quiet educathingTagline d2)
        (projectClearOne quiet emblemTagline)))

/-- PaymentSeedSpec.seed: look up the three profiles and the studio and
dairy projects (misses raise uncaught), then create the six payments. -/
def paymentSeed (_quiet : Bool) (db : DB) : RunResult :=
  if "donor" ∈ db.profiles then
    if "ambassador" ∈ db.profiles then
      if "administrator" ∈ db.profiles then
        match getProjectByTagline studioTagline db with
        | .error e => ⟨db, [], some e⟩
        | .ok studio =>
          match getProjectByTagline dairyTagline db with
          | .error e => ⟨db, [], some e⟩
          | .ok dairy =>
            ⟨{ db with payments := db.payments ++
                [⟨studio.id, "donor", "donor", 50⟩,
                 ⟨dairy.id, "donor", "administrator", 50⟩,
                 ⟨studio.id, "donor", "administrator", 50⟩,
                 ⟨studio.id, "donor", "administrator", 50⟩,
                 ⟨dairy.id, "administrator", "administrator", 50⟩,
                 ⟨studio.id, "ambassador", "ambassador", 50⟩] }, [], none⟩
      else ⟨db, [], some .profileNotFound⟩
    else ⟨db, [], some .profileNotFound⟩
  else ⟨db, [], some .profileNotFound⟩

/-- PaymentSeedSpec.clear: look up the three profiles inside the try block
(any miss raises RevolvUserProfile.DoesNotExist, which the except clause
catches and turns into a warning, skipping the deletes), then delete the
payments of each of the three users.  Modelled from the spec: the payments
manager call selects the payments whose user is the given profile. -/
def paymentClear (quiet : Bool) (db : DB) : RunResult :=
  if "donor" ∈ db.profiles then
    if "ambassador" ∈ db.profiles then
      if "administrator" ∈ db.profiles then
        let remaining := ((db.payments.filter (fun pm => pm.user != "donor")).filter
          (fun pm => pm.user != "ambassador")).filter (fun pm => pm.user != "administrator")
        ⟨{ db with payments := remaining }, [], none⟩
      else ⟨db, logIf quiet (warnMsg "PaymentSeedSpec"
        "RevolvUserProfile matching query does not exist."), none⟩
    else ⟨db, logIf quiet (warnMsg "PaymentSeedSpec"
      "RevolvUserProfile matching query does not exist."), none⟩
  else ⟨db, logIf quiet (warnMsg "PaymentSeedSpec"
    "RevolvUserProfile matching query does not exist."), none⟩

/-- One entry of the page hierarchy of CMSPageSeedSpec: a custom page with
a title and children, or a link page with a title and an href. -/
inductive PageNode where
  | page : String → List PageNode → PageNode
  | link : String → String → PageNode
deriving Repr

/-- The page_hierarchy of CMSPageSeedSpec. -/
def pageHierarchy : List PageNode :=
  [.page "About Us" [
    .link "Our Mission" "/about-us/",
    .page "Our Team" [],
    .page "Partners" [],
    .page "Jobs" []],
   .page "What We Do" [
    .page "How It Works" [],
    .page "Projects" [],
    .link "Solar In Your Community" "/what-we-do/"],
   .page "Get Involved" [
    .link "Donate to the Solar Seed Fund" "/get-involved/",
    .page "Solar Ambassador Program" [],
    .page "Support Us" [],
    .page "Join Our Mailing List" [],
    .page "Volunteer" []],
   .page "Solar Education" [
    .link "Educational Resources" "/solar-education/",
    .page "Solar Education Week" []],
   .page "Media" [
    .link "Blog" "/media/",
    .page "Press Room" [],
    .page "RE-volv in the News" []],
   .page "Contact" [
    .link "Contact Us" "/contact/"]]

mutual

/-- Titles published for one node of the hierarchy, in the order
recursively_seed_pages publishes them: the page itself, then its children. -/
def publishOne : PageNode → List String
  | .link title _ => [title]
  | .page title children => title :: publishList children

/-- Titles published for a list of hierarchy nodes, in order. -/
def publishList : List PageNode → List String
  | [] => []
  | p :: rest => publishOne p ++ publishList rest

end

/-- CMSPageSeedSpec.seed: look up the administrator user (a miss raises
User.DoesNotExist, uncaught), then publish every page of page_hierarchy
under the site root. -/
def cmsSeed (_quiet : Bool) (db : DB) : RunResult :=
  if "administrator" ∈ db.users then
    ⟨{ db with pages := db.pages ++ publishList pageHierarchy }, [], none⟩
  else ⟨db, [], some .userNotFound⟩

/-- CMSPageSeedSpec.clear: delete the root page of the single site, which
deletes its whole subtree of pages, then add a fresh root page and point the
site at it.  Modelled from the spec: the single site always exists, so the
ObjectDoesNotExist handler of this clear never fires in a reachable state. -/
def cmsClear (_quiet : Bool) (db : DB) : RunResult :=
  ⟨{ db with pages := [], rootPageTitle := "RE-volv Main Site Root" }, [], none⟩

/-- The names of the four seed specifications. -/
inductive SpecName where
  | revolvuserprofile
  | project
  | payment
  | cms
deriving DecidableEq, Repr

/-- The SPECS_TO_RUN registry: name to specification, in registration order. -/
def SPECS_TO_RUN : List (String × SpecName) :=
  [("revolvuserprofile", .revolvuserprofile),
   ("project", .project),
   ("payment", .payment),
   ("cms", .cms)]

/-- Dispatch one specification to its seed or clear operation. -/
def runSpec (s : SpecName) (clear quiet : Bool) (db : DB) : RunResult :=
  match s, clear with
  | .revolvuserprofile, false => revolvUserProfileSeed quiet db
  | .revolvuserprofile, true => revolvUserProfileClear quiet db
  | .project, false => projectSeed quiet db
  | .project, true => projectClear quiet db
  | .payment, false => paymentSeed quiet db
  | .payment, true => paymentClear quiet db
  | .cms, false => cmsSeed quiet db
  | .cms, true => cmsClear quiet db

/-- The loop of Command.handle over the selected specifications: an uncaught
exception aborts the remaining iterations. -/
def runSpecs (specs : List SpecName) (clear quiet : Bool) (db : DB) : RunResult :=
  match specs with
  | [] => ⟨db, [], none⟩
  | s :: rest => andThen (runSpec s clear quiet db) (runSpecs rest clear quiet)

/-- The options of the seed command. -/
structure Options where
  clear : Bool
  spec : Option String
  quiet : Bool
  listOnly : Bool
deriving DecidableEq, Repr

/-- The registered specification names, in order. -/
def specNames : List String := SPECS_TO_RUN.map (fun p => p.1)

/-- Command.handle: with the list option, print the available names and
return; otherwise select the specifications and run each one in seed or
clear mode, printing the info header first and the final info line if no
exception was raised.  The spec option is consulted through the truthiness
test of the source: a missing spec option and an empty spec name are both
falsy, so both run all registered specifications; a truthy name selects the
one specification registered under it, or none with a warning when the name
is not registered. -/
def handle (opts : Options) (db : DB) : RunResult :=
  if opts.listOnly then
    ⟨db,
     logIf opts.quiet "[Seed:Info] The following seeds are available: " ++
     logIf opts.quiet ("[Seed:Info]    " ++ String.intercalate ", " specNames) ++
     logIf opts.quiet "[Seed:Info] Done.", none⟩
  else
    let verb := if opts.clear then "Clearing" else "Seeding"
    let selected : List SpecName × List String :=
      match opts.spec with
      | some name =>
        if name = "" then (SPECS_TO_RUN.map (fun p => p.2), [])
        else
          match SPECS_TO_RUN.lookup name with
          | some s => ([s], [])
          | none => ([], logIf opts.quiet
              ("[Seed:Warning] Trying to run only spec " ++ name ++
               ", but it doesn't exist."))
      | none => (SPECS_TO_RUN.map (fun p => p.2), [])
    let header := logIf opts.quiet
      ("[Seed:Info] " ++ verb ++ " objects from " ++
       toString selected.1.length ++ " seed spec(s)...")
    let r := runSpecs selected.1 opts.clear opts.quiet db
    match r.err with
    | some e => ⟨r.db, selected.2 ++ header ++ r.out, some e⟩
    | none => ⟨r.db, selected.2 ++ header ++ r.out ++ logIf opts.quiet "[Seed:Info] Done!", none⟩

/-- The editable fields declared by ProjectForm.Meta, in declaration order. -/
def ProjectFormFields : List String :=
  ["title", "mission_statement", "funding_goal", "impact_power", "end_date",
   "video_url", "cover_photo", "org_name", "org_about", "org_start_date",
   "location", "location_latitude", "location_longitude"]

/-- The editable fields declared by ProjectStatusForm.Meta: none, on
purpose. -/
def ProjectStatusFormFields : List String := []

/-- The editable fields declared by PostFundingUpdateForm.Meta. -/
def PostFundingUpdateFormFields : List String :=
  ["post_funding_updates", "solar_url"]

/-- The editable fields declared by PostProjectUpdateForm.Meta. -/
def PostProjectUpdateFormFields : List String :=
  ["update_text", "project"]

/-- A decimal number as submitted to a form: the digits as a signed integer
and the number of digits written after the decimal point.  The value is
num / 10 ^ scale. -/
structure DecimalInput where
  num : Int
  scale : Nat
deriving DecidableEq, Repr

/-- The rational value of a submitted decimal. -/
def DecimalInput.val (d : DecimalInput) : ℚ := (d.num : ℚ) / (10 : ℚ) ^ d.scale

/-- The validation parameters of a forms.DecimalField declaration. -/
structure DecimalFieldSpec where
  minValue : Option ℚ
  decimalPlaces : Option Nat
deriving Repr

/-- The funding_goal field of ProjectForm: DecimalField with min_value 0 and
decimal_places 2. -/
def fundingGoalField : DecimalFieldSpec := { minValue := some 0, decimalPlaces := some 2 }

/-- Validation of a submitted decimal against a DecimalField declaration,
as the framework performs it: the value must be at least min_value, and the
number of digits written after the decimal point must be at most
decimal_places. -/
def decimalFieldAccepts (f : DecimalFieldSpec) (d : DecimalInput) : Bool :=
  (match f.minValue with
   | some m => decide (m ≤ d.val)
   | none => true) &&
  (match f.decimalPlaces with
   | some p => decide (d.scale ≤ p)
   | none => true)

/-- Foreign-key and profile integrity of a database state, as the framework
enforces it for states reachable through the application: every profile has
its user and every user its profile (profiles are created with their users
by signals), every project references an existing ambassador profile and a
primary key below the sequence, and every payment references existing user
and entrant profiles and an existing project. -/
def WF (db : DB) : Prop :=
  (∀ u ∈ db.profiles, u ∈ db.users) ∧
  (∀ u ∈ db.users, u ∈ db.profiles) ∧
  (∀ p ∈ db.projects, p.ambassador ∈ db.profiles ∧ p.id < db.nextProjectId) ∧
  (∀ pm ∈ db.payments, pm.user ∈ db.profiles ∧ pm.entrant ∈ db.profiles ∧
    pm.projectId ∈ db.projects.map (fun p => p.id))

instance (db : DB) : Decidable (WF db) := by
  unfold WF
  infer_instance

/-- A state not containing any of the rows the seed command creates: none
of the three seeded usernames exists, and no project bears a seeded
tagline. -/
def Fresh (db : DB) : Prop :=
  "donor" ∉ db.users ∧ "ambassador" ∉ db.users ∧ "administrator" ∉ db.users ∧
  ∀ p ∈ db.projects, p.tagline ∉ seededTaglines

instance (db : DB) : Decidable (Fresh db) := by
  unfold Fresh
  infer_instance

/-- The empty development database: no rows, the framework-provided site
root only. -/
def emptyDB : DB := ⟨[], [], [], [], 0, [], "Welcome to your new Wagtail site!"⟩

/-- The four project rows created by ProjectSeedSpec.seed when the project
primary-key sequence stands at n. -/
def seededProjects (n : Nat) : List ProjectRow :=
  [⟨n, studioTagline, "ambassador", "active"⟩,
   ⟨n + 1, dairyTagline, "ambassador", "completed"⟩,
   ⟨n + 2, educathingTagline, "ambassador", "proposed"⟩,
   ⟨n + 3, emblemTagline, "ambassador", "drafted"⟩]

/-- The six payment rows created by PaymentSeedSpec.seed when the studio
project has key n and the dairy project key n + 1. -/
def seededPayments (n : Nat) : List PaymentRow :=
  [⟨n, "donor", "donor", 50⟩,
   ⟨n + 1, "donor", "administrator", 50⟩,
   ⟨n, "donor", "administrator", 50⟩,
   ⟨n, "donor", "administrator", 50⟩,
   ⟨n + 1, "administrator", "administrator", 50⟩,
   ⟨n, "ambassador", "ambassador", 50⟩]

/-- The database state reached by running the whole seed command on a fresh
well-formed state. -/
def seededState (db : DB) : DB :=
  { users := db.users ++ ["donor", "ambassador", "administrator"],
    profiles := db.profiles ++ ["donor", "ambassador", "administrator"],
    projects := db.projects ++ seededProjects db.nextProjectId,
    payments := db.payments ++ seededPayments db.nextProjectId,
    nextProjectId := db.nextProjectId + 4,
    pages := db.pages ++ publishList pageHierarchy,
    rootPageTitle := db.rootPageTitle }

/-! Helper lemmas about the command dispatcher. -/

/-- Running the command without the list and spec options reaches the same
state as the bare loop over all four specifications. -/
theorem handle_all_db (c q : Bool) (db : DB) :
    (handle ⟨c, none, q, false⟩ db).db =
      (runSpecs (SPECS_TO_RUN.map (fun p => p.2)) c q db).db := by
  unfold handle
  simp only [Bool.false_eq_true, if_false]
  split <;> rfl

/-- Running the command without the list and spec options raises exactly
what the bare loop over all four specifications raises: the command
installs no handler of its own. -/
theorem handle_all_err (c q : Bool) (db : DB) :
    (handle ⟨c, none, q, false⟩ db).err =
      (runSpecs (SPECS_TO_RUN.map (fun p => p.2)) c q db).err := by
  unfold handle
  simp only [Bool.false_eq_true, if_false]
  split <;> simp_all

/-- Running the command with a registered spec name reaches the same state
as that one specification run on its own. -/
theorem handle_one_db (nm : String) (s : SpecName) (c q : Bool) (db : DB)
    (h : SPECS_TO_RUN.lookup nm = some s) :
    (handle ⟨c, some nm, q, false⟩ db).db = (runSpec s c q db).db := by
  have hempty : SPECS_TO_RUN.lookup "" = none := by decide
  have hne : nm ≠ "" := by
    intro e
    rw [e, hempty] at h
    exact Option.noConfusion h
  unfold handle runSpecs
  simp only [h, hne, Bool.false_eq_true, if_false, if_neg hne]
  unfold andThen runSpecs
  split <;> split <;> simp_all

/-- Running the command with a registered spec name raises exactly what
that one specification raises. -/
theorem handle_one_err (nm : String) (s : SpecName) (c q : Bool) (db : DB)
    (h : SPECS_TO_RUN.lookup nm = some s) :
    (handle ⟨c, some nm, q, false⟩ db).err = (runSpec s c q db).err := by
  have hempty : SPECS_TO_RUN.lookup "" = none := by decide
  have hne : nm ≠ "" := by
    intro e
    rw [e, hempty] at h
    exact Option.noConfusion h
  unfold handle runSpecs
  simp only [h, hne, Bool.false_eq_true, if_false, if_neg hne]
  unfold andThen runSpecs
  split <;> split <;> simp_all

/-- C8: the create and update form for a Project permits editing exactly the
thirteen fields title, mission_statement, funding_goal, impact_power,
end_date, video_url, cover_photo, org_name, org_about, org_start_date,
location, location_latitude and location_longitude, each once, and none of
the remaining Project fields that appear elsewhere in the repository
(tagline, description, solar_url, post_funding_updates, actual_energy,
internal_rate_return); the project-status review form permits editing no
fields at all. -/
theorem project_form_fields_exact :
    ProjectFormFields =
      ["title", "mission_statement", "funding_goal", "impact_power", "end_date",
       "video_url", "cover_photo", "org_name", "org_about", "org_start_date",
       "location", "location_latitude", "location_longitude"] ∧
    ProjectFormFields.length = 13 ∧
    ProjectFormFields.Nodup ∧
    (∀ f ∈ ["tagline", "description", "solar_url", "post_funding_updates",
            "actual_energy", "internal_rate_return"], f ∉ ProjectFormFields) ∧
    ProjectStatusFormFields = [] := by
  refine ⟨rfl, rfl, by decide, by decide, rfl⟩

/-- C10: the funding_goal field of the project form, a DecimalField with
min_value 0 and decimal_places 2, rejects every submission whose value is
negative or that is written with more than two digits after the decimal
point. -/
theorem funding_goal_rejects_invalid (d : DecimalInput)
    (h : d.val < 0 ∨ 2 < d.scale) :
    decimalFieldAccepts fundingGoalField d = false := by
  unfold decimalFieldAccepts fundingGoalField
  rcases h with h | h
  · have hn : ¬ ((0 : ℚ) ≤ d.val) := not_le.mpr h
    simp [hn]
  · have hn : ¬ (d.scale ≤ 2) := not_le.mpr h
    simp [hn]

/-- Witness for C10 at the concrete submission -1 (written with no decimal
digits): it is negative and the field rejects it. -/
theorem funding_goal_rejects_invalid_witness :
    ((DecimalInput.mk (-1) 0).val < 0 ∨ 2 < (DecimalInput.mk (-1) 0).scale) ∧
    decimalFieldAccepts fundingGoalField (DecimalInput.mk (-1) 0) = false :=
  ⟨Or.inl (by norm_num [DecimalInput.val]),
   funding_goal_rejects_invalid ⟨-1, 0⟩ (Or.inl (by norm_num [DecimalInput.val]))⟩

/-- C5: without the spec and list options the command runs the four
specifications in the registered order revolvuserprofile, project, payment,
cms, and this order satisfies every data dependency among them: on the
empty database the whole seed run raises nothing and creates the three
users and profiles, the four projects, the six payments and the
twenty-four CMS pages. -/
theorem seed_order_and_empty_db_success :
    SPECS_TO_RUN.map (fun p => p.2) =
      [SpecName.revolvuserprofile, SpecName.project, SpecName.payment, SpecName.cms] ∧
    (handle ⟨false, none, false, false⟩ emptyDB).err = none ∧
    (handle ⟨false, none, false, false⟩ emptyDB).db.users.length = 3 ∧
    (handle ⟨false, none, false, false⟩ emptyDB).db.profiles.length = 3 ∧
    (handle ⟨false, none, false, false⟩ emptyDB).db.projects.length = 4 ∧
    (handle ⟨false, none, false, false⟩ emptyDB).db.payments.length = 6 ∧
    (handle ⟨false, none, false, false⟩ emptyDB).db.pages.length = 24 := by
  decide

/-- C6: with the list option the command prints the three info lines naming
the four available specifications (or nothing under quiet), runs no
specification, leaves the database unchanged and raises nothing, whatever
the clear and spec options say. -/
theorem list_option_prints_and_exits (c q : Bool) (s : Option String) (db : DB) :
    (handle ⟨c, s, q, true⟩ db).db = db ∧
    (handle ⟨c, s, q, true⟩ db).err = none ∧
    (handle ⟨c, s, q, true⟩ db).out =
      (if q then [] else
        ["[Seed:Info] The following seeds are available: ",
         "[Seed:Info]    revolvuserprofile, project, payment, cms",
         "[Seed:Info] Done."]) := by
  refine ⟨rfl, rfl, ?_⟩
  cases q <;> rfl

/-- C9 (amended): with a non-empty spec name that is not registered the
command selects no specification at all: it leaves the database unchanged,
raises nothing, and prints the warning about the unknown name (together
with the info lines) unless quiet is set.  The non-empty condition is
forced by the truthiness test of the source: an empty name is falsy and
runs all four specifications instead. -/
theorem unknown_spec_name_runs_nothing (c q : Bool) (name : String) (db : DB)
    (h : name ∉ specNames) (hne : name ≠ "") :
    (handle ⟨c, some name, q, false⟩ db).db = db ∧
    (handle ⟨c, some name, q, false⟩ db).err = none ∧
    (handle ⟨c, some name, q, false⟩ db).out =
      (if q then [] else
        ["[Seed:Warning] Trying to run only spec " ++ name ++ ", but it doesn't exist.",
         "[Seed:Info] " ++ (if c then "Clearing" else "Seeding") ++
           " objects from 0 seed spec(s)...",
         "[Seed:Info] Done!"]) := by
  simp only [specNames, SPECS_TO_RUN, List.map_cons, List.map_nil, List.mem_cons,
    List.mem_singleton, not_or] at h
  obtain ⟨h1, h2, h3, h4, -⟩ := h
  have hl : SPECS_TO_RUN.lookup name = none := by
    simp [SPECS_TO_RUN, List.lookup, beq_eq_false_iff_ne.mpr h1,
      beq_eq_false_iff_ne.mpr h2, beq_eq_false_iff_ne.mpr h3,
      beq_eq_false_iff_ne.mpr h4]
  unfold handle
  simp only [hl, hne, Bool.false_eq_true, if_false, if_neg hne]
  cases q <;> cases c <;> simp [runSpecs, logIf] <;> rfl

/-- Witness for C9 at the concrete name bogus on the empty database. -/
theorem unknown_spec_name_runs_nothing_witness :
    (handle ⟨false, some "bogus", false, false⟩ emptyDB).db = emptyDB ∧
    (handle ⟨false, some "bogus", false, false⟩ emptyDB).err = none ∧
    (handle ⟨false, some "bogus", false, false⟩ emptyDB).out =
      (if false then [] else
        ["[Seed:Warning] Trying to run only spec " ++ "bogus" ++ ", but it doesn't exist.",
         "[Seed:Info] " ++ (if false then "Clearing" else "Seeding") ++
           " objects from 0 seed spec(s)...",
         "[Seed:Info] Done!"]) :=
  unknown_spec_name_runs_nothing false false "bogus" emptyDB (by decide) (by decide)

/-- Counterexample to C9 as stated: the empty string is not a registered
specification name, yet seed with an empty spec name is falsy in the
truthiness test of the source and therefore runs all four specifications:
on the empty database it creates the three users rather than leaving the
database unchanged. -/
theorem empty_spec_name_runs_all_specs :
    "" ∉ specNames ∧
    (handle ⟨false, some "", false, false⟩ emptyDB).err = none ∧
    (handle ⟨false, some "", false, false⟩ emptyDB).db.users.length = 3 ∧
    ¬ (handle ⟨false, some "", false, false⟩ emptyDB).db = emptyDB := by
  decide

/-! Projection-preservation toolbox: which tables each seed operation can
touch. -/

/-- A projection of the state that the continuation preserves is preserved
by sequencing. -/
theorem andThen_db_proj {α : Type} (g : DB → α) (r : RunResult) (k : DB → RunResult)
    (hk : ∀ d, g (k d).db = g d) :
    g (andThen r k).db = g r.db := by
  unfold andThen
  cases h : r.err <;> simp [h, hk]

/-- A user-creation call changes the users and profiles tables only. -/
theorem createUser_proj {α : Type} (g : DB → α) (u : String) (db : DB)
    (hg : ∀ d us pr, g { d with users := us, profiles := pr } = g d) :
    g (createUser u db).db = g db := by
  unfold createUser
  split
  · rfl
  · exact hg db _ _

/-- The user-profile seed changes the users and profiles tables only. -/
theorem revolvUserProfileSeed_proj {α : Type} (g : DB → α) (q : Bool) (db : DB)
    (hg : ∀ d us pr, g { d with users := us, profiles := pr } = g d) :
    g (revolvUserProfileSeed q db).db = g db := by
  unfold revolvUserProfileSeed
  have h3 : ∀ d, g (createUser "administrator" d).db = g d :=
    fun d => createUser_proj g _ _ hg
  have h2 : ∀ d, g (andThen (createUser "ambassador" d) (createUser "administrator")).db = g d :=
    fun d => (andThen_db_proj g _ _ h3).trans (createUser_proj g _ _ hg)
  exact (andThen_db_proj g _ _ h2).trans (createUser_proj g _ _ hg)

/-- The project seed changes the projects table and its key sequence only. -/
theorem projectSeed_proj {α : Type} (g : DB → α) (q : Bool) (db : DB)
    (hg : ∀ d pj n, g { d with projects := pj, nextProjectId := n } = g d) :
    g (projectSeed q db).db = g db := by
  unfold projectSeed createProject
  split
  · exact (hg db _ _).trans ((hg db _ _).trans ((hg db _ _).trans (hg db _ _)))
  · rfl

/-- The payment seed changes the payments table only. -/
theorem paymentSeed_proj {α : Type} (g : DB → α) (q : Bool) (db : DB)
    (hg : ∀ d pm, g { d with payments := pm } = g d) :
    g (paymentSeed q db).db = g db := by
  unfold paymentSeed
  repeat' split
  all_goals first | rfl | exact hg db _

/-- The CMS seed changes the pages table only. -/
theorem cmsSeed_proj {α : Type} (g : DB → α) (q : Bool) (db : DB)
    (hg : ∀ d pg, g { d with pages := pg } = g d) :
    g (cmsSeed q db).db = g db := by
  unfold cmsSeed
  split
  · exact hg db _
  · rfl

/-- C2: for each of the four registered names, seed with the spec option
selects exactly the one specification registered under that name, and that
run creates rows only in the tables of that specification: every table
belonging to the other specifications is unchanged, whatever state the run
starts from and whether or not it succeeds. -/
theorem spec_option_only_named_tables :
    (SPECS_TO_RUN.lookup "revolvuserprofile" = some SpecName.revolvuserprofile ∧
     SPECS_TO_RUN.lookup "project" = some SpecName.project ∧
     SPECS_TO_RUN.lookup "payment" = some SpecName.payment ∧
     SPECS_TO_RUN.lookup "cms" = some SpecName.cms) ∧
    (∀ (q : Bool) (db : DB),
      (handle ⟨false, some "revolvuserprofile", q, false⟩ db).db.projects = db.projects ∧
      (handle ⟨false, some "revolvuserprofile", q, false⟩ db).db.payments = db.payments ∧
      (handle ⟨false, some "revolvuserprofile", q, false⟩ db).db.nextProjectId = db.nextProjectId ∧
      (handle ⟨false, some "revolvuserprofile", q, false⟩ db).db.pages = db.pages ∧
      (handle ⟨false, some "revolvuserprofile", q, false⟩ db).db.rootPageTitle = db.rootPageTitle) ∧
    (∀ (q : Bool) (db : DB),
      (handle ⟨false, some "project", q, false⟩ db).db.users = db.users ∧
      (handle ⟨false, some "project", q, false⟩ db).db.profiles = db.profiles ∧
      (handle ⟨false, some "project", q, false⟩ db).db.payments = db.payments ∧
      (handle ⟨false, some "project", q, false⟩ db).db.pages = db.pages ∧
      (handle ⟨false, some "project", q, false⟩ db).db.rootPageTitle = db.rootPageTitle) ∧
    (∀ (q : Bool) (db : DB),
      (handle ⟨false, some "payment", q, false⟩ db).db.users = db.users ∧
      (handle ⟨false, some "payment", q, false⟩ db).db.profiles = db.profiles ∧
      (handle ⟨false, some "payment", q, false⟩ db).db.projects = db.projects ∧
      (handle ⟨false, some "payment", q, false⟩ db).db.pages = db.pages ∧
      (handle ⟨false, some "payment", q, false⟩ db).db.rootPageTitle = db.rootPageTitle) ∧
    (∀ (q : Bool) (db : DB),
      (handle ⟨false, some "cms", q, false⟩ db).db.users = db.users ∧
      (handle ⟨false, some "cms", q, false⟩ db).db.profiles = db.profiles ∧
      (handle ⟨false, some "cms", q, false⟩ db).db.projects = db.projects ∧
      (handle ⟨false, some "cms", q, false⟩ db).db.payments = db.payments) := by
  refine ⟨⟨rfl, rfl, rfl, rfl⟩, ?_, ?_, ?_, ?_⟩
  · intro q db
    have hd : (handle ⟨false, some "revolvuserprofile", q, false⟩ db).db =
        (revolvUserProfileSeed q db).db :=
      handle_one_db "revolvuserprofile" .revolvuserprofile false q db rfl
    rw [hd]
    exact ⟨revolvUserProfileSeed_proj (fun d => d.projects) q db (fun _ _ _ => rfl),
           revolvUserProfileSeed_proj (fun d => d.payments) q db (fun _ _ _ => rfl),
           revolvUserProfileSeed_proj (fun d => d.nextProjectId) q db (fun _ _ _ => rfl),
           revolvUserProfileSeed_proj (fun d => d.pages) q db (fun _ _ _ => rfl),
           revolvUserProfileSeed_proj (fun d => d.rootPageTitle) q db (fun _ _ _ => rfl)⟩
  · intro q db
    have hd : (handle ⟨false, some "project", q, false⟩ db).db = (projectSeed q db).db :=
      handle_one_db "project" .project false q db rfl
    rw [hd]
    exact ⟨projectSeed_proj (fun d => d.users) q db (fun _ _ _ => rfl),
           projectSeed_proj (fun d => d.profiles) q db (fun _ _ _ => rfl),
           projectSeed_proj (fun d => d.payments) q db (fun _ _ _ => rfl),
           projectSeed_proj (fun d => d.pages) q db (fun _ _ _ => rfl),
           projectSeed_proj (fun d => d.rootPageTitle) q db (fun _ _ _ => rfl)⟩
  · intro q db
    have hd : (handle ⟨false, some "payment", q, false⟩ db).db = (paymentSeed q db).db :=
      handle_one_db "payment" .payment false q db rfl
    rw [hd]
    exact ⟨paymentSeed_proj (fun d => d.users) q db (fun _ _ => rfl),
           paymentSeed_proj (fun d => d.profiles) q db (fun _ _ => rfl),
           paymentSeed_proj (fun d => d.projects) q db (fun _ _ => rfl),
           paymentSeed_proj (fun d => d.pages) q db (fun _ _ => rfl),
           paymentSeed_proj (fun d => d.rootPageTitle) q db (fun _ _ => rfl)⟩
  · intro q db
    have hd : (handle ⟨false, some "cms", q, false⟩ db).db = (cmsSeed q db).db :=
      handle_one_db "cms" .cms false q db rfl
    rw [hd]
    exact ⟨cmsSeed_proj (fun d => d.users) q db (fun _ _ => rfl),
           cmsSeed_proj (fun d => d.profiles) q db (fun _ _ => rfl),
           cmsSeed_proj (fun d => d.projects) q db (fun _ _ => rfl),
           cmsSeed_proj (fun d => d.payments) q db (fun _ _ => rfl)⟩

/-! Which exceptions the clear operations can let escape. -/

/-- Sequencing cannot introduce an exception neither step can raise. -/
theorem andThen_err_ne (r : RunResult) (k : DB → RunResult) (e : Err)
    (hr : r.err ≠ some e) (hk : ∀ d, (k d).err ≠ some e) :
    (andThen r k).err ≠ some e := by
  unfold andThen
  cases h : r.err with
  | none => simpa [h] using hk r.db
  | some x => simpa [h] using fun hc => hr (h ▸ (by simpa using hc : some x = some e))

/-- One step of the user-profile clear never lets a User.DoesNotExist
escape: it is the one exception its except clause catches. -/
theorem revolvUserProfileClearOne_err (q : Bool) (u : String) (db : DB) :
    (revolvUserProfileClearOne q u db).err ≠ some Err.userNotFound := by
  unfold revolvUserProfileClearOne
  repeat' split <;> simp

/-- The user-profile clear never lets a User.DoesNotExist escape. -/
theorem revolvUserProfileClear_err (q : Bool) (db : DB) :
    (revolvUserProfileClear q db).err ≠ some Err.userNotFound := by
  unfold revolvUserProfileClear
  exact andThen_err_ne _ _ _ (revolvUserProfileClearOne_err q _ db)
    (fun d => andThen_err_ne _ _ _ (revolvUserProfileClearOne_err q _ d)
      (fun d2 => revolvUserProfileClearOne_err q _ d2))

/-- One step of the project clear never lets a Project.DoesNotExist escape:
it is the one exception its except clause catches. -/
theorem projectClearOne_err (q : Bool) (t : String) (db : DB) :
    (projectClearOne q t db).err ≠ some Err.projectNotFound := by
  unfold projectClearOne getProjectByTagline
  repeat' split <;> simp_all

/-- The project clear never lets a Project.DoesNotExist escape. -/
theorem projectClear_err (q : Bool) (db : DB) :
    (projectClear q db).err ≠ some Err.projectNotFound := by
  unfold projectClear
  exact andThen_err_ne _ _ _ (projectClearOne_err q _ db)
    (fun d => andThen_err_ne _ _ _ (projectClearOne_err q _ d)
      (fun d2 => andThen_err_ne _ _ _ (projectClearOne_err q _ d2)
        (fun d3 => projectClearOne_err q _ d3)))

/-- The payment clear never raises at all: its single try block catches the
only exception its body can raise. -/
theorem paymentClear_err (q : Bool) (db : DB) :
    (paymentClear q db).err = none := by
  unfold paymentClear
  repeat' split
  all_goals rfl

/-- The CMS clear never raises: the single site always exists. -/
theorem cmsClear_err (q : Bool) (db : DB) :
    (cmsClear q db).err = none := rfl

/-- C4: the only exceptions the seed command ever swallows are the
record-not-found errors caught inside the clear operations: the user-profile
clear never lets a User.DoesNotExist escape, the project clear never lets a
Project.DoesNotExist escape, the payment and CMS clears never raise at all,
and the command itself installs no handler around the specifications: with
or without the spec option it raises exactly what the loop over the selected
specifications raises. -/
theorem only_not_found_in_clear_is_caught :
    (∀ (q : Bool) (db : DB), (revolvUserProfileClear q db).err ≠ some Err.userNotFound) ∧
    (∀ (q : Bool) (db : DB), (projectClear q db).err ≠ some Err.projectNotFound) ∧
    (∀ (q : Bool) (db : DB), (paymentClear q db).err = none) ∧
    (∀ (q : Bool) (db : DB), (cmsClear q db).err = none) ∧
    (∀ (c q : Bool) (db : DB),
      (handle ⟨c, none, q, false⟩ db).err =
        (runSpecs (SPECS_TO_RUN.map (fun p => p.2)) c q db).err) ∧
    (∀ (c q : Bool) (db : DB),
      (handle ⟨c, some "revolvuserprofile", q, false⟩ db).err =
        (runSpec SpecName.revolvuserprofile c q db).err ∧
      (handle ⟨c, some "project", q, false⟩ db).err = (runSpec SpecName.project c q db).err ∧
      (handle ⟨c, some "payment", q, false⟩ db).err = (runSpec SpecName.payment c q db).err ∧
      (handle ⟨c, some "cms", q, false⟩ db).err = (runSpec SpecName.cms c q db).err) :=
  ⟨revolvUserProfileClear_err, projectClear_err, paymentClear_err, cmsClear_err,
   handle_all_err,
   fun c q db =>
     ⟨handle_one_err "revolvuserprofile" .revolvuserprofile c q db rfl,
      handle_one_err "project" .project c q db rfl,
      handle_one_err "payment" .payment c q db rfl,
      handle_one_err "cms" .cms c q db rfl⟩⟩

/-- Sequencing steps that print nothing prints nothing. -/
theorem andThen_out_nil (r : RunResult) (k : DB → RunResult)
    (hr : r.out = []) (hk : ∀ d, (k d).out = []) :
    (andThen r k).out = [] := by
  unfold andThen
  cases h : r.err <;> simp [h, hr, hk]

/-- Sequencing preserves quiet-independence: if both steps reach the same
state and error under either quiet flag and print nothing when quiet, so
does their sequence. -/
theorem andThen_quiet (f : Bool → DB → RunResult) (g : Bool → DB → RunResult) (d : DB)
    (hf : (f true d).db = (f false d).db ∧ (f true d).err = (f false d).err ∧ (f true d).out = [])
    (hg : ∀ d2, (g true d2).db = (g false d2).db ∧ (g true d2).err = (g false d2).err ∧
      (g true d2).out = []) :
    (andThen (f true d) (g true)).db = (andThen (f false d) (g false)).db ∧
    (andThen (f true d) (g true)).err = (andThen (f false d) (g false)).err ∧
    (andThen (f true d) (g true)).out = [] := by
  obtain ⟨hdb, herr, hout⟩ := hf
  unfold andThen
  cases h : (f false d).err with
  | some e =>
    have h2 : (f true d).err = some e := herr.trans h
    simp [h, h2, hdb, hout]
  | none =>
    have h2 : (f true d).err = none := herr.trans h
    obtain ⟨gdb, gerr, gout⟩ := hg (f false d).db
    simp [h, h2, hdb, hout, gdb, gerr, gout]

/-- A user-creation call prints nothing. -/
theorem createUser_out (u : String) (db : DB) : (createUser u db).out = [] := by
  unfold createUser
  split <;> rfl

/-- The user-profile seed ignores the quiet flag except for printing, and
prints nothing anyway. -/
theorem revolvUserProfileSeed_quiet (d : DB) :
    (revolvUserProfileSeed true d).db = (revolvUserProfileSeed false d).db ∧
    (revolvUserProfileSeed true d).err = (revolvUserProfileSeed false d).err ∧
    (revolvUserProfileSeed true d).out = [] := by
  refine ⟨rfl, rfl, ?_⟩
  unfold revolvUserProfileSeed
  exact andThen_out_nil _ _ (createUser_out _ d)
    (fun d2 => andThen_out_nil _ _ (createUser_out _ d2) (fun d3 => createUser_out _ d3))

/-- The project seed ignores the quiet flag except for printing, and prints
nothing anyway. -/
theorem projectSeed_quiet (d : DB) :
    (projectSeed true d).db = (projectSeed false d).db ∧
    (projectSeed true d).err = (projectSeed false d).err ∧
    (projectSeed true d).out = [] := by
  refine ⟨rfl, rfl, ?_⟩
  unfold projectSeed
  split <;> rfl

/-- The payment seed ignores the quiet flag except for printing, and prints
nothing anyway. -/
theorem paymentSeed_quiet (d : DB) :
    (paymentSeed true d).db = (paymentSeed false d).db ∧
    (paymentSeed true d).err = (paymentSeed false d).err ∧
    (paymentSeed true d).out = [] := by
  refine ⟨rfl, rfl, ?_⟩
  unfold paymentSeed
  repeat' split
  all_goals rfl

/-- The CMS seed ignores the quiet flag except for printing, and prints
nothing anyway. -/
theorem cmsSeed_quiet (d : DB) :
    (cmsSeed true d).db = (cmsSeed false d).db ∧
    (cmsSeed true d).err = (cmsSeed false d).err ∧
    (cmsSeed true d).out = [] := by
  refine ⟨rfl, rfl, ?_⟩
  unfold cmsSeed
  split <;> rfl

/-- One step of the user-profile clear reaches the same state and error
whatever the quiet flag, and prints nothing when quiet. -/
theorem revolvUserProfileClearOne_quiet (u : String) (d : DB) :
    (revolvUserProfileClearOne true u d).db = (revolvUserProfileClearOne false u d).db ∧
    (revolvUserProfileClearOne true u d).err = (revolvUserProfileClearOne false u d).err ∧
    (revolvUserProfileClearOne true u d).out = [] := by
  unfold revolvUserProfileClearOne
  repeat' split
  all_goals exact ⟨rfl, rfl, rfl⟩

/-- The user-profile clear reaches the same state and error whatever the
quiet flag, and prints nothing when quiet. -/
theorem revolvUserProfileClear_quiet (d : DB) :
    (revolvUserProfileClear true d).db = (revolvUserProfileClear false d).db ∧
    (revolvUserProfileClear true d).err = (revolvUserProfileClear false d).err ∧
    (revolvUserProfileClear true d).out = [] := by
  unfold revolvUserProfileClear
  exact andThen_quiet (fun q => revolvUserProfileClearOne q "donor")
    (fun q d2 => andThen (revolvUserProfileClearOne q "ambassador" d2)
      (revolvUserProfileClearOne q "administrator")) d
    (revolvUserProfileClearOne_quiet "donor" d)
    (fun d2 => andThen_quiet (fun q => revolvUserProfileClearOne q "ambassador")
      (fun q => revolvUserProfileClearOne q "administrator") d2
      (revolvUserProfileClearOne_quiet "ambassador" d2)
      (fun d3 => revolvUserProfileClearOne_quiet "administrator" d3))

/-- One step of the project clear reaches the same state and error whatever
the quiet flag, and prints nothing when quiet. -/
theorem projectClearOne_quiet (t : String) (d : DB) :
    (projectClearOne true t d).db = (projectClearOne false t d).db ∧
    (projectClearOne true t d).err = (projectClearOne false t d).err ∧
    (projectClearOne true t d).out = [] := by
  unfold projectClearOne
  repeat' split
  all_goals exact ⟨rfl, rfl, rfl⟩

/-- The project clear reaches the same state and error whatever the quiet
flag, and prints nothing when quiet. -/
theorem projectClear_quiet (d : DB) :
    (projectClear true d).db = (projectClear false d).db ∧
    (projectClear true d).err = (projectClear false d).err ∧
    (projectClear true d).out = [] := by
  unfold projectClear
  exact andThen_quiet (fun q => projectClearOne q studioTagline)
    (fun q d2 => andThen (projectClearOne q dairyTagline d2) (fun d3 =>
      andThen (projectClearOne q educathingTagline d3) (projectClearOne q emblemTagline))) d
    (projectClearOne_quiet studioTagline d)
    (fun d2 => andThen_quiet (fun q => projectClearOne q dairyTagline)
      (fun q d3 => andThen (projectClearOne q educathingTagline d3)
        (projectClearOne q emblemTagline)) d2
      (projectClearOne_quiet dairyTagline d2)
      (fun d3 => andThen_quiet (fun q => projectClearOne q educathingTagline)
        (fun q => projectClearOne q emblemTagline) d3
        (projectClearOne_quiet educathingTagline d3)
        (fun d4 => projectClearOne_quiet emblemTagline d4)))

/-- The payment clear reaches the same state and error whatever the quiet
flag, and prints nothing when quiet. -/
theorem paymentClear_quiet (d : DB) :
    (paymentClear true d).db = (paymentClear false d).db ∧
    (paymentClear true d).err = (paymentClear false d).err ∧
    (paymentClear true d).out = [] := by
  unfold paymentClear
  repeat' split
  all_goals exact ⟨rfl, rfl, rfl⟩

/-- The CMS clear reaches the same state and error whatever the quiet flag,
and prints nothing when quiet. -/
theorem cmsClear_quiet (d : DB) :
    (cmsClear true d).db = (cmsClear false d).db ∧
    (cmsClear true d).err = (cmsClear false d).err ∧
    (cmsClear true d).out = [] :=
  ⟨rfl, rfl, rfl⟩

/-- Every specification operation reaches the same state and error whatever
the quiet flag, and prints nothing when quiet. -/
theorem runSpec_quiet (s : SpecName) (c : Bool) (d : DB) :
    (runSpec s c true d).db = (runSpec s c false d).db ∧
    (runSpec s c true d).err = (runSpec s c false d).err ∧
    (runSpec s c true d).out = [] := by
  cases s <;> cases c
  · exact revolvUserProfileSeed_quiet d
  · exact revolvUserProfileClear_quiet d
  · exact projectSeed_quiet d
  · exact projectClear_quiet d
  · exact paymentSeed_quiet d
  · exact paymentClear_quiet d
  · exact cmsSeed_quiet d
  · exact cmsClear_quiet d

/-- The loop over any list of specifications reaches the same state and
error whatever the quiet flag, and prints nothing when quiet. -/
theorem runSpecs_quiet (specs : List SpecName) (c : Bool) (d : DB) :
    (runSpecs specs c true d).db = (runSpecs specs c false d).db ∧
    (runSpecs specs c true d).err = (runSpecs specs c false d).err ∧
    (runSpecs specs c true d).out = [] := by
  induction specs generalizing d with
  | nil => exact ⟨rfl, rfl, rfl⟩
  | cons s rest ih =>
    unfold runSpecs
    exact andThen_quiet (fun q => runSpec s c q) (fun q => runSpecs rest c q) d
      (runSpec_quiet s c d) (fun d2 => ih d2)

/-- C7: running the command with the quiet flag prints nothing at all, and
changes nothing else: from any state, the same invocation with and without
quiet reaches the same database state and raises the same exception. -/
theorem quiet_suppresses_output_only (c l : Bool) (s : Option String) (db : DB) :
    (handle ⟨c, s, true, l⟩ db).out = [] ∧
    (handle ⟨c, s, true, l⟩ db).db = (handle ⟨c, s, false, l⟩ db).db ∧
    (handle ⟨c, s, true, l⟩ db).err = (handle ⟨c, s, false, l⟩ db).err := by
  cases l with
  | true => exact ⟨rfl, rfl, rfl⟩
  | false =>
    cases s with
    | none =>
      obtain ⟨hdb, herr, hout⟩ := runSpecs_quiet (SPECS_TO_RUN.map (fun p => p.2)) c db
      unfold handle
      simp only [Bool.false_eq_true, if_false]
      cases h : (runSpecs (SPECS_TO_RUN.map (fun p => p.2)) c false db).err with
      | none => simp [h, herr.trans h, logIf, hdb, hout]
      | some e => simp [h, herr.trans h, logIf, hdb, hout]
    | some nm =>
      by_cases hne : nm = ""
      · subst hne
        obtain ⟨hdb, herr, hout⟩ := runSpecs_quiet (SPECS_TO_RUN.map (fun p => p.2)) c db
        unfold handle
        simp only [Bool.false_eq_true, if_false, if_pos rfl]
        cases h : (runSpecs (SPECS_TO_RUN.map (fun p => p.2)) c false db).err with
        | none => simp [h, herr.trans h, logIf, hdb, hout]
        | some e => simp [h, herr.trans h, logIf, hdb, hout]
      · cases hl : SPECS_TO_RUN.lookup nm with
        | none =>
          unfold handle
          simp [hne, hl, logIf, runSpecs]
        | some sp =>
          obtain ⟨hdb, herr, hout⟩ := runSpecs_quiet [sp] c db
          unfold handle
          simp only [hne, hl, Bool.false_eq_true, if_false, if_neg hne]
          cases h : (runSpecs [sp] c false db).err with
          | none => simp [h, herr.trans h, logIf, hdb, hout]
          | some e => simp [h, herr.trans h, logIf, hdb, hout]

/-- When every user has its profile, one step of the user-profile clear
raises nothing, keeps that invariant, and only ever removes projects. -/
theorem revolvUserProfileClearOne_ok (q : Bool) (u : String) (db : DB)
    (hup : ∀ x ∈ db.users, x ∈ db.profiles) :
    (revolvUserProfileClearOne q u db).err = none ∧
    (∀ x ∈ (revolvUserProfileClearOne q u db).db.users,
      x ∈ (revolvUserProfileClearOne q u db).db.profiles) ∧
    (revolvUserProfileClearOne q u db).db.projects.Sublist db.projects := by
  unfold revolvUserProfileClearOne
  split
  · split
    · refine ⟨rfl, ?_, ?_⟩
      · intro x hx
        unfold deleteUser deleteProfileCascade at hx ⊢
        simp only [List.mem_filter, bne_iff_ne, ne_eq, decide_eq_true_eq] at hx ⊢
        exact ⟨hup x hx.1, hx.2⟩
      · unfold deleteUser deleteProfileCascade
        exact List.filter_sublist _
    · exact absurd (hup u (by assumption)) (by assumption)
  · exact ⟨rfl, hup, List.Sublist.refl _⟩

/-- When every user has its profile, the whole user-profile clear raises
nothing and only ever removes projects. -/
theorem revolvUserProfileClear_ok (q : Bool) (db : DB)
    (hup : ∀ x ∈ db.users, x ∈ db.profiles) :
    (revolvUserProfileClear q db).err = none ∧
    (revolvUserProfileClear q db).db.projects.Sublist db.projects := by
  unfold revolvUserProfileClear
  obtain ⟨e1, hup1, hsub1⟩ := revolvUserProfileClearOne_ok q "donor" db hup
  obtain ⟨e2, hup2, hsub2⟩ :=
    revolvUserProfileClearOne_ok q "ambassador" (revolvUserProfileClearOne q "donor" db).db hup1
  obtain ⟨e3, hup3, hsub3⟩ := revolvUserProfileClearOne_ok q "administrator"
    (revolvUserProfileClearOne q "ambassador" (revolvUserProfileClearOne q "donor" db).db).db hup2
  unfold andThen
  simp only [e1, e2, e3]
  exact ⟨trivial, (hsub3.trans hsub2).trans hsub1⟩

/-- When at most one project bears the tagline, one step of the project
clear raises nothing and only ever removes projects. -/
theorem projectClearOne_ok (q : Bool) (t : String) (db : DB)
    (hlen : (db.projects.filter (fun p => p.tagline == t)).length ≤ 1) :
    (projectClearOne q t db).err = none ∧
    (projectClearOne q t db).db.projects.Sublist db.projects := by
  unfold projectClearOne getProjectByTagline
  rcases hfe : db.projects.filter (fun p => p.tagline == t) with - | ⟨p, - | ⟨p2, rest⟩⟩
  · simp only [hfe]
    exact ⟨trivial, List.Sublist.refl _⟩
  · simp only [hfe]
    unfold deleteProjectCascade
    exact ⟨trivial, List.filter_sublist _⟩
  · rw [hfe] at hlen
    simp at hlen

/-- When at most one project bears each seeded tagline, the project clear
raises nothing. -/
theorem projectClear_ok (q : Bool) (db : DB)
    (htag : ∀ t ∈ seededTaglines, (db.projects.filter (fun p => p.tagline == t)).length ≤ 1) :
    (projectClear q db).err = none := by
  unfold projectClear
  have h1 := projectClearOne_ok q studioTagline db
    (htag studioTagline (by simp [seededTaglines]))
  have h2 := projectClearOne_ok q dairyTagline (projectClearOne q studioTagline db).db
    (le_trans ((h1.2.filter _).length_le) (htag dairyTagline (by simp [seededTaglines])))
  have h3 := projectClearOne_ok q educathingTagline
    (projectClearOne q dairyTagline (projectClearOne q studioTagline db).db).db
    (le_trans (((h2.2.trans h1.2).filter _).length_le)
      (htag educathingTagline (by simp [seededTaglines])))
  have h4 := projectClearOne_ok q emblemTagline
    (projectClearOne q educathingTagline
      (projectClearOne q dairyTagline (projectClearOne q studioTagline db).db).db).db
    (le_trans ((((h3.2.trans h2.2).trans h1.2).filter _).length_le)
      (htag emblemTagline (by simp [seededTaglines])))
  unfold andThen
  simp only [h1.1, h2.1, h3.1, h4.1]

/-- The clear loop over all four specifications raises nothing on any state
where every user has its profile and at most one project bears each seeded
tagline. -/
theorem clear_run_ok (q : Bool) (db : DB)
    (hup : ∀ x ∈ db.users, x ∈ db.profiles)
    (htag : ∀ t ∈ seededTaglines, (db.projects.filter (fun p => p.tagline == t)).length ≤ 1) :
    (runSpecs (SPECS_TO_RUN.map (fun p => p.2)) true q db).err = none := by
  obtain ⟨e1, hsub1⟩ := revolvUserProfileClear_ok q db hup
  have e2 : (projectClear q (revolvUserProfileClear q db).db).err = none :=
    projectClear_ok q _ (fun t ht => le_trans ((hsub1.filter _).length_le) (htag t ht))
  have e3 := paymentClear_err q
    (projectClear q (revolvUserProfileClear q db).db).db
  simp only [SPECS_TO_RUN, List.map_cons, List.map_nil, runSpecs, runSpec, andThen,
    e1, e2, e3, cmsClear_err]

/-- C3 (amended): on every database state in which each user has its
RevolvUserProfile and at most one project bears each seeded tagline, the
clear command raises no error, whether or not anything was ever seeded:
every record-not-found its clear operations meet is caught and reduced to
at most a warning print. -/
theorem clear_tolerates_missing_records (db : DB) (q : Bool)
    (hup : ∀ u ∈ db.users, u ∈ db.profiles)
    (htag : ∀ t ∈ seededTaglines, (db.projects.filter (fun p => p.tagline == t)).length ≤ 1) :
    (handle ⟨true, none, q, false⟩ db).err = none := by
  rw [handle_all_err]
  exact clear_run_ok q db hup htag

/-- Witness for C3 on the never-seeded empty database: clearing raises no
error there. -/
theorem clear_tolerates_missing_records_witness :
    (∀ u ∈ emptyDB.users, u ∈ emptyDB.profiles) ∧
    (∀ t ∈ seededTaglines, (emptyDB.projects.filter (fun p => p.tagline == t)).length ≤ 1) ∧
    (handle ⟨true, none, false, false⟩ emptyDB).err = none :=
  ⟨by decide, by decide,
   clear_tolerates_missing_records emptyDB false (by decide) (by decide)⟩

/-- Counterexample to C3 as stated: on the state holding one auth user
donor without a RevolvUserProfile row, the clear command raises an uncaught
RevolvUserProfile.DoesNotExist, because the except clause of the
user-profile clear catches User.DoesNotExist only. -/
theorem clear_raises_on_profileless_user :
    (handle ⟨true, none, false, false⟩ (DB.mk ["donor"] [] [] [] 0 [] "root")).err =
      some Err.profileNotFound := by decide

/-- The user-profile seed on a state without the three usernames creates
exactly the three users and their profiles. -/
theorem revolvUserProfileSeed_eq (q : Bool) (db : DB)
    (h1 : "donor" ∉ db.users) (h2 : "ambassador" ∉ db.users)
    (h3 : "administrator" ∉ db.users) :
    revolvUserProfileSeed q db =
      ⟨{ db with users := db.users ++ ["donor", "ambassador", "administrator"],
                 profiles := db.profiles ++ ["donor", "ambassador", "administrator"] },
       [], none⟩ := by
  have h2' : ¬ "ambassador" ∈ db.users ++ ["donor"] := by
    intro hm
    rcases List.mem_append.mp hm with hm | hm
    · exact h2 hm
    · exact absurd (List.mem_singleton.mp hm) (by decide)
  have h3' : ¬ "administrator" ∈ db.users ++ ["donor", "ambassador"] := by
    intro hm
    rcases List.mem_append.mp hm with hm | hm
    · exact h3 hm
    · rcases List.mem_cons.mp hm with hm | hm
      · exact absurd hm (by decide)
      · exact absurd (List.mem_singleton.mp hm) (by decide)
  unfold revolvUserProfileSeed andThen createUser
  simp only [if_neg h1, if_neg h2', if_neg h3', List.append_assoc, List.singleton_append,
    List.cons_append, List.nil_append]

/-- The project seed on a state whose profiles include the ambassador
creates exactly the four seeded projects. -/
theorem projectSeed_eq (q : Bool) (db : DB) (ha : "ambassador" ∈ db.profiles) :
    projectSeed q db =
      ⟨{ db with projects := db.projects ++ seededProjects db.nextProjectId,
                 nextProjectId := db.nextProjectId + 4 }, [], none⟩ := by
  unfold projectSeed createProject seededProjects
  rw [if_pos ha]
  simp only [List.append_assoc, List.singleton_append, List.cons_append, List.nil_append,
    Nat.add_assoc]

/-- The payment seed on a state whose profiles include the three users and
whose project lookups succeed creates exactly the six payments. -/
theorem paymentSeed_eq (q : Bool) (db : DB) (ps pd : ProjectRow)
    (hd : "donor" ∈ db.profiles) (ha : "ambassador" ∈ db.profiles)
    (hm : "administrator" ∈ db.profiles)
    (hs : getProjectByTagline studioTagline db = .ok ps)
    (hd2 : getProjectByTagline dairyTagline db = .ok pd) :
    paymentSeed q db =
      ⟨{ db with payments := db.payments ++
          [⟨ps.id, "donor", "donor", 50⟩,
           ⟨pd.id, "donor", "administrator", 50⟩,
           ⟨ps.id, "donor", "administrator", 50⟩,
           ⟨ps.id, "donor", "administrator", 50⟩,
           ⟨pd.id, "administrator", "administrator", 50⟩,
           ⟨ps.id, "ambassador", "ambassador", 50⟩] }, [], none⟩ := by
  unfold paymentSeed
  rw [if_pos hd, if_pos ha, if_pos hm, hs, hd2]

/-- The CMS seed on a state whose users include the administrator publishes
exactly the pages of the hierarchy. -/
theorem cmsSeed_eq (q : Bool) (db : DB) (hm : "administrator" ∈ db.users) :
    cmsSeed q db = ⟨{ db with pages := db.pages ++ publishList pageHierarchy }, [], none⟩ := by
  unfold cmsSeed
  rw [if_pos hm]

/-- On a state whose projects bear no seeded tagline, the tagline lookups
find nothing. -/
theorem filter_not_seeded (db : DB) (t : String) (ht : t ∈ seededTaglines)
    (htag : ∀ p ∈ db.projects, p.tagline ∉ seededTaglines) :
    db.projects.filter (fun p => p.tagline == t) = [] := by
  refine List.filter_eq_nil_iff.mpr (fun p hp => ?_)
  simp only [beq_iff_eq]
  intro he
  exact htag p hp (he ▸ ht)

/-- Among the four seeded projects, exactly the studio project bears the
studio tagline. -/
theorem seededProjects_filter_studio (n : Nat) :
    (seededProjects n).filter (fun p => p.tagline == studioTagline) =
      [⟨n, studioTagline, "ambassador", "active"⟩] := by
  have b1 : (studioTagline == studioTagline) = true := by decide
  have b2 : (dairyTagline == studioTagline) = false := by decide
  have b3 : (educathingTagline == studioTagline) = false := by decide
  have b4 : (emblemTagline == studioTagline) = false := by decide
  simp [seededProjects, List.filter, b1, b2, b3, b4]

/-- Among the four seeded projects, exactly the dairy project bears the
dairy tagline. -/
theorem seededProjects_filter_dairy (n : Nat) :
    (seededProjects n).filter (fun p => p.tagline == dairyTagline) =
      [⟨n + 1, dairyTagline, "ambassador", "completed"⟩] := by
  have b1 : (studioTagline == dairyTagline) = false := by decide
  have b2 : (dairyTagline == dairyTagline) = true := by decide
  have b3 : (educathingTagline == dairyTagline) = false := by decide
  have b4 : (emblemTagline == dairyTagline) = false := by decide
  simp [seededProjects, List.filter, b1, b2, b3, b4]

/-- The whole seed run on a fresh well-formed state reaches exactly the
seeded state, printing nothing and raising nothing. -/
theorem seed_run_eq (q : Bool) (db : DB) (hwf : WF db) (hf : Fresh db) :
    runSpecs (SPECS_TO_RUN.map (fun p => p.2)) false q db = ⟨seededState db, [], none⟩ := by
  obtain ⟨hpu, hup, hproj, hpay⟩ := hwf
  obtain ⟨h1, h2, h3, htag⟩ := hf
  have e1 := revolvUserProfileSeed_eq q db h1 h2 h3
  have ha1 : "ambassador" ∈
      ({ db with users := db.users ++ ["donor", "ambassador", "administrator"],
                 profiles := db.profiles ++ ["donor", "ambassador", "administrator"] } : DB).profiles := by
    simp
  have e2 := projectSeed_eq q
    { db with users := db.users ++ ["donor", "ambassador", "administrator"],
              profiles := db.profiles ++ ["donor", "ambassador", "administrator"] } ha1
  have hs : getProjectByTagline studioTagline
      { db with users := db.users ++ ["donor", "ambassador", "administrator"],
                profiles := db.profiles ++ ["donor", "ambassador", "administrator"],
                projects := db.projects ++ seededProjects db.nextProjectId,
                nextProjectId := db.nextProjectId + 4 } =
      .ok ⟨db.nextProjectId, studioTagline, "ambassador", "active"⟩ := by
    unfold getProjectByTagline
    simp only [List.filter_append,
      filter_not_seeded db studioTagline (by simp [seededTaglines]) htag,
      seededProjects_filter_studio, List.nil_append]
  have hd2 : getProjectByTagline dairyTagline
      { db with users := db.users ++ ["donor", "ambassador", "administrator"],
                profiles := db.profiles ++ ["donor", "ambassador", "administrator"],
                projects := db.projects ++ seededProjects db.nextProjectId,
                nextProjectId := db.nextProjectId + 4 } =
      .ok ⟨db.nextProjectId + 1, dairyTagline, "ambassador", "completed"⟩ := by
    unfold getProjectByTagline
    simp only [List.filter_append,
      filter_not_seeded db dairyTagline (by simp [seededTaglines]) htag,
      seededProjects_filter_dairy, List.nil_append]
  have e3 := paymentSeed_eq q
    { db with users := db.users ++ ["donor", "ambassador", "administrator"],
              profiles := db.profiles ++ ["donor", "ambassador", "administrator"],
              projects := db.projects ++ seededProjects db.nextProjectId,
              nextProjectId := db.nextProjectId + 4 }
    ⟨db.nextProjectId, studioTagline, "ambassador", "active"⟩
    ⟨db.nextProjectId + 1, dairyTagline, "ambassador", "completed"⟩
    (by simp) (by simp) (by simp) hs hd2
  have e4 := cmsSeed_eq q
    { db with users := db.users ++ ["donor", "ambassador", "administrator"],
              profiles := db.profiles ++ ["donor", "ambassador", "administrator"],
              projects := db.projects ++ seededProjects db.nextProjectId,
              nextProjectId := db.nextProjectId + 4,
              payments := db.payments ++
                [⟨db.nextProjectId, "donor", "donor", 50⟩,
                 ⟨db.nextProjectId + 1, "donor", "administrator", 50⟩,
                 ⟨db.nextProjectId, "donor", "administrator", 50⟩,
                 ⟨db.nextProjectId, "donor", "administrator", 50⟩,
                 ⟨db.nextProjectId + 1, "administrator", "administrator", 50⟩,
                 ⟨db.nextProjectId, "ambassador", "ambassador", 50⟩] }
    (by simp)
  simp only [SPECS_TO_RUN, List.map_cons, List.map_nil, runSpecs, runSpec, andThen,
    e1, e2, e3, e4, seededState, seededPayments, List.nil_append, List.append_nil]

/-- A filter that removes a username not occurring in the list removes
nothing. -/
theorem filter_str_self (l : List String) (u : String) (h : u ∉ l) :
    l.filter (fun x => x != u) = l := by
  refine List.filter_eq_self.mpr (fun x hx => ?_)
  simp only [bne_iff_ne, ne_eq, decide_eq_true_eq]
  exact fun e => h (e ▸ hx)

/-- The cascade keeps every project whose ambassador is not the deleted
profile. -/
theorem filter_amb_self (l : List ProjectRow) (u : String) (h : ∀ p ∈ l, p.ambassador ≠ u) :
    l.filter (fun p => p.ambassador != u) = l := by
  refine List.filter_eq_self.mpr (fun p hp => ?_)
  simp only [bne_iff_ne, ne_eq, decide_eq_true_eq]
  exact h p hp

/-- No project of the list has the deleted profile as ambassador. -/
theorem filter_amb_nil (l : List ProjectRow) (u : String) (h : ∀ p ∈ l, p.ambassador ≠ u) :
    l.filter (fun p => p.ambassador == u) = [] := by
  refine List.filter_eq_nil_iff.mpr (fun p hp => ?_)
  simp only [beq_iff_eq]
  exact h p hp

/-- Clearing the donor on the seeded state removes the donor user, the
donor profile and, by cascade, the four payments of the donor. -/
theorem clearOne_donor_seeded (q : Bool) (db : DB)
    (hpu : ∀ u ∈ db.profiles, u ∈ db.users)
    (hproj : ∀ p ∈ db.projects, p.ambassador ∈ db.profiles ∧ p.id < db.nextProjectId)
    (hpay : ∀ pm ∈ db.payments, pm.user ∈ db.profiles ∧ pm.entrant ∈ db.profiles ∧
      pm.projectId ∈ db.projects.map (fun p => p.id))
    (h1 : "donor" ∉ db.users) :
    revolvUserProfileClearOne q "donor" (seededState db) =
      ⟨{ db with users := db.users ++ ["ambassador", "administrator"],
                 profiles := db.profiles ++ ["ambassador", "administrator"],
                 projects := db.projects ++ seededProjects db.nextProjectId,
                 payments := db.payments ++
                   [⟨db.nextProjectId + 1, "administrator", "administrator", 50⟩,
                    ⟨db.nextProjectId, "ambassador", "ambassador", 50⟩],
                 nextProjectId := db.nextProjectId + 4,
                 pages := db.pages ++ publishList pageHierarchy }, [], none⟩ := by
  have hdp : "donor" ∉ db.profiles := fun hm => h1 (hpu _ hm)
  unfold revolvUserProfileClearOne
  rw [if_pos (by simp [seededState]), if_pos (by simp [seededState])]
  unfold deleteUser deleteProfileCascade
  simp only [seededState, seededProjects, seededPayments, List.filter_append,
    List.map_append, List.map_cons, List.map_nil,
    filter_str_self db.users "donor" h1, filter_str_self db.profiles "donor" hdp,
    filter_amb_self db.projects "donor"
      (fun p hp => fun e => hdp (e ▸ (hproj p hp).1)),
    filter_amb_nil db.projects "donor"
      (fun p hp => fun e => hdp (e ▸ (hproj p hp).1))]
  simp +decide
  exact fun a ha => ⟨fun e => hdp (e ▸ (hpay a ha).1), fun e => hdp (e ▸ (hpay a ha).2.1)⟩

/-- Clearing the ambassador next removes the ambassador user and profile
and, by cascade, the four seeded projects and their two remaining
payments; the pre-existing rows survive because their keys lie below the
seeded ones. -/
theorem clearOne_ambassador_seeded (q : Bool) (db : DB)
    (hpu : ∀ u ∈ db.profiles, u ∈ db.users)
    (hproj : ∀ p ∈ db.projects, p.ambassador ∈ db.profiles ∧ p.id < db.nextProjectId)
    (hpay : ∀ pm ∈ db.payments, pm.user ∈ db.profiles ∧ pm.entrant ∈ db.profiles ∧
      pm.projectId ∈ db.projects.map (fun p => p.id))
    (h2 : "ambassador" ∉ db.users) :
    revolvUserProfileClearOne q "ambassador"
      { db with users := db.users ++ ["ambassador", "administrator"],
                profiles := db.profiles ++ ["ambassador", "administrator"],
                projects := db.projects ++ seededProjects db.nextProjectId,
                payments := db.payments ++
                  [⟨db.nextProjectId + 1, "administrator", "administrator", 50⟩,
                   ⟨db.nextProjectId, "ambassador", "ambassador", 50⟩],
                nextProjectId := db.nextProjectId + 4,
                pages := db.pages ++ publishList pageHierarchy } =
      ⟨{ db with users := db.users ++ ["administrator"],
                 profiles := db.profiles ++ ["administrator"],
                 nextProjectId := db.nextProjectId + 4,
                 pages := db.pages ++ publishList pageHierarchy }, [], none⟩ := by
  have hap : "ambassador" ∉ db.profiles := fun hm => h2 (hpu _ hm)
  have hpidlt : ∀ pm ∈ db.payments, pm.projectId < db.nextProjectId := by
    intro pm hpm
    rcases List.mem_map.mp (hpay pm hpm).2.2 with ⟨p, hp, he⟩
    exact he ▸ (hproj p hp).2
  unfold revolvUserProfileClearOne
  rw [if_pos (by simp), if_pos (by simp)]
  unfold deleteUser deleteProfileCascade
  simp only [seededProjects, List.filter_append, List.map_append, List.map_cons, List.map_nil,
    filter_str_self db.users "ambassador" h2, filter_str_self db.profiles "ambassador" hap,
    filter_amb_self db.projects "ambassador"
      (fun p hp => fun e => hap (e ▸ (hproj p hp).1)),
    filter_amb_nil db.projects "ambassador"
      (fun p hp => fun e => hap (e ▸ (hproj p hp).1))]
  simp +decide
  intro a ha
  have hlt := hpidlt a ha
  exact ⟨⟨fun e => hap (e ▸ (hpay a ha).1), fun e => hap (e ▸ (hpay a ha).2.1)⟩,
    by omega, by omega, by omega, by omega⟩

/-- Clearing the administrator last removes only the administrator user and
profile: nothing else references it any more. -/
theorem clearOne_administrator_seeded (q : Bool) (db : DB)
    (hpu : ∀ u ∈ db.profiles, u ∈ db.users)
    (hproj : ∀ p ∈ db.projects, p.ambassador ∈ db.profiles ∧ p.id < db.nextProjectId)
    (hpay : ∀ pm ∈ db.payments, pm.user ∈ db.profiles ∧ pm.entrant ∈ db.profiles ∧
      pm.projectId ∈ db.projects.map (fun p => p.id))
    (h3 : "administrator" ∉ db.users) :
    revolvUserProfileClearOne q "administrator"
      { db with users := db.users ++ ["administrator"],
                profiles := db.profiles ++ ["administrator"],
                nextProjectId := db.nextProjectId + 4,
                pages := db.pages ++ publishList pageHierarchy } =
      ⟨{ db with nextProjectId := db.nextProjectId + 4,
                 pages := db.pages ++ publishList pageHierarchy }, [], none⟩ := by
  have hap : "administrator" ∉ db.profiles := fun hm => h3 (hpu _ hm)
  unfold revolvUserProfileClearOne
  rw [if_pos (by simp), if_pos (by simp)]
  unfold deleteUser deleteProfileCascade
  simp only [List.filter_append,
    filter_str_self db.users "administrator" h3,
    filter_str_self db.profiles "administrator" hap,
    filter_amb_self db.projects "administrator"
      (fun p hp => fun e => hap (e ▸ (hproj p hp).1)),
    filter_amb_nil db.projects "administrator"
      (fun p hp => fun e => hap (e ▸ (hproj p hp).1))]
  simp +decide
  exact fun a ha => ⟨fun e => hap (e ▸ (hpay a ha).1), fun e => hap (e ▸ (hpay a ha).2.1)⟩

/-- The user-profile clear on the seeded state raises nothing and restores
the users, profiles, projects and payments tables to their pre-seed
contents: the cascade of the three profile deletions removes exactly the
seeded projects and payments. -/
theorem revolvUserProfileClear_seeded_eq (q : Bool) (db : DB)
    (hpu : ∀ u ∈ db.profiles, u ∈ db.users)
    (hproj : ∀ p ∈ db.projects, p.ambassador ∈ db.profiles ∧ p.id < db.nextProjectId)
    (hpay : ∀ pm ∈ db.payments, pm.user ∈ db.profiles ∧ pm.entrant ∈ db.profiles ∧
      pm.projectId ∈ db.projects.map (fun p => p.id))
    (h1 : "donor" ∉ db.users) (h2 : "ambassador" ∉ db.users)
    (h3 : "administrator" ∉ db.users) :
    revolvUserProfileClear q (seededState db) =
      ⟨{ db with nextProjectId := db.nextProjectId + 4,
                 pages := db.pages ++ publishList pageHierarchy }, [], none⟩ := by
  unfold revolvUserProfileClear andThen
  simp only [clearOne_donor_seeded q db hpu hproj hpay h1,
    clearOne_ambassador_seeded q db hpu hproj hpay h2,
    clearOne_administrator_seeded q db hpu hproj hpay h3,
    List.nil_append, List.append_nil]

/-- On a state whose projects bear no seeded tagline, one step of the
project clear only warns. -/
theorem projectClearOne_warn (q : Bool) (t : String) (db : DB) (ht : t ∈ seededTaglines)
    (htag : ∀ p ∈ db.projects, p.tagline ∉ seededTaglines) :
    projectClearOne q t db =
      ⟨db, logIf q (warnMsg "ProjectSeedSpec" "Project matching query does not exist."),
       none⟩ := by
  unfold projectClearOne getProjectByTagline
  simp only [filter_not_seeded db t ht htag]

/-- On a state whose projects bear no seeded tagline, the project clear
only warns four times. -/
theorem projectClear_warn (q : Bool) (db : DB)
    (htag : ∀ p ∈ db.projects, p.tagline ∉ seededTaglines) :
    projectClear q db =
      ⟨db, logIf q (warnMsg "ProjectSeedSpec" "Project matching query does not exist.") ++
           (logIf q (warnMsg "ProjectSeedSpec" "Project matching query does not exist.") ++
            (logIf q (warnMsg "ProjectSeedSpec" "Project matching query does not exist.") ++
             logIf q (warnMsg "ProjectSeedSpec" "Project matching query does not exist."))),
       none⟩ := by
  unfold projectClear andThen
  simp only [projectClearOne_warn q studioTagline db (by simp [seededTaglines]) htag,
    projectClearOne_warn q dairyTagline db (by simp [seededTaglines]) htag,
    projectClearOne_warn q educathingTagline db (by simp [seededTaglines]) htag,
    projectClearOne_warn q emblemTagline db (by simp [seededTaglines]) htag]

/-- On a state without the donor profile, the payment clear only warns. -/
theorem paymentClear_warn (q : Bool) (db : DB) (h : "donor" ∉ db.profiles) :
    paymentClear q db =
      ⟨db, logIf q (warnMsg "PaymentSeedSpec" "RevolvUserProfile matching query does not exist."),
       none⟩ := by
  unfold paymentClear
  rw [if_neg h]

/-- The whole clear run on the seeded state raises nothing and ends with
the users, profiles, projects and payments tables exactly as before the
seed, the page tree reset to a fresh root. -/
theorem clear_run_seeded_eq (q : Bool) (db : DB) (hwf : WF db) (hf : Fresh db) :
    (runSpecs (SPECS_TO_RUN.map (fun p => p.2)) true q (seededState db)).err = none ∧
    (runSpecs (SPECS_TO_RUN.map (fun p => p.2)) true q (seededState db)).db =
      { db with nextProjectId := db.nextProjectId + 4, pages := [],
                rootPageTitle := "RE-volv Main Site Root" } := by
  obtain ⟨hpu, hup, hproj, hpay⟩ := hwf
  obtain ⟨h1, h2, h3, htag⟩ := hf
  have hdp : "donor" ∉ db.profiles := fun hm => h1 (hpu _ hm)
  have c1 := revolvUserProfileClear_seeded_eq q db hpu hproj hpay h1 h2 h3
  have c2 := projectClear_warn q
    { db with nextProjectId := db.nextProjectId + 4,
              pages := db.pages ++ publishList pageHierarchy } htag
  have c3 := paymentClear_warn q
    { db with nextProjectId := db.nextProjectId + 4,
              pages := db.pages ++ publishList pageHierarchy } hdp
  simp only [SPECS_TO_RUN, List.map_cons, List.map_nil, runSpecs, runSpec, andThen,
    c1, c2, c3, cmsClear]
  exact ⟨trivial, trivial⟩

/-- C1 (amended): on every well-formed database state that contains none of
the three seeded usernames and no project bearing a seeded tagline, the
seed command raises nothing, and the following clear command raises nothing
and leaves the users, user-profiles, projects and payments tables with
exactly the row counts they had before the seed: together the pair is a
round-trip on those four tables. -/
theorem seed_then_clear_restores_row_counts (db : DB) (q q2 : Bool)
    (hwf : WF db) (hf : Fresh db) :
    (handle ⟨false, none, q, false⟩ db).err = none ∧
    (handle ⟨true, none, q2, false⟩ (handle ⟨false, none, q, false⟩ db).db).err = none ∧
    (handle ⟨true, none, q2, false⟩ (handle ⟨false, none, q, false⟩ db).db).db.users.length =
      db.users.length ∧
    (handle ⟨true, none, q2, false⟩ (handle ⟨false, none, q, false⟩ db).db).db.profiles.length =
      db.profiles.length ∧
    (handle ⟨true, none, q2, false⟩ (handle ⟨false, none, q, false⟩ db).db).db.projects.length =
      db.projects.length ∧
    (handle ⟨true, none, q2, false⟩ (handle ⟨false, none, q, false⟩ db).db).db.payments.length =
      db.payments.length := by
  have hseed : (handle ⟨false, none, q, false⟩ db).db = seededState db := by
    rw [handle_all_db, seed_run_eq q db hwf hf]
  have hseederr : (handle ⟨false, none, q, false⟩ db).err = none := by
    rw [handle_all_err, seed_run_eq q db hwf hf]
  obtain ⟨e2, d2⟩ := clear_run_seeded_eq q2 db hwf hf
  refine ⟨hseederr, ?_, ?_, ?_, ?_, ?_⟩
  · rw [hseed, handle_all_err]
    exact e2
  · rw [hseed, handle_all_db, d2]
  · rw [hseed, handle_all_db, d2]
  · rw [hseed, handle_all_db, d2]
  · rw [hseed, handle_all_db, d2]

/-- Witness for C1 on the empty database, which is well formed and fresh:
seed then clear raises nothing and restores the zero row counts. -/
theorem seed_then_clear_restores_row_counts_witness :
    WF emptyDB ∧ Fresh emptyDB ∧
    ((handle ⟨false, none, false, false⟩ emptyDB).err = none ∧
     (handle ⟨true, none, false, false⟩ (handle ⟨false, none, false, false⟩ emptyDB).db).err = none ∧
     (handle ⟨true, none, false, false⟩
         (handle ⟨false, none, false, false⟩ emptyDB).db).db.users.length =
       emptyDB.users.length ∧
     (handle ⟨true, none, false, false⟩
         (handle ⟨false, none, false, false⟩ emptyDB).db).db.profiles.length =
       emptyDB.profiles.length ∧
     (handle ⟨true, none, false, false⟩
         (handle ⟨false, none, false, false⟩ emptyDB).db).db.projects.length =
       emptyDB.projects.length ∧
     (handle ⟨true, none, false, false⟩
         (handle ⟨false, none, false, false⟩ emptyDB).db).db.payments.length =
       emptyDB.payments.length) :=
  ⟨by decide, by decide,
   seed_then_clear_restores_row_counts emptyDB false false (by decide) (by decide)⟩

/-- Counterexample to C1 as stated: on the state already holding the donor
user and profile, the seed command raises an integrity error on the unique
username (leaving the state unchanged), and the following clear command
deletes the pre-existing donor, so the users table ends with zero rows
instead of one: the seed and clear pair is not a round trip on every
database state. -/
theorem seed_then_clear_changes_counts_on_existing_user :
    (handle ⟨false, none, false, false⟩ (DB.mk ["donor"] ["donor"] [] [] 0 [] "root")).err =
      some Err.integrity ∧
    (handle ⟨true, none, false, false⟩
        (handle ⟨false, none, false, false⟩
          (DB.mk ["donor"] ["donor"] [] [] 0 [] "root")).db).err = none ∧
    ¬ (handle ⟨true, none, false, false⟩
        (handle ⟨false, none, false, false⟩
          (DB.mk ["donor"] ["donor"] [] [] 0 [] "root")).db).db.users.length =
      (DB.mk ["donor"] ["donor"] [] [] 0 [] "root").users.length := by
  decide

end Revolv
